import Mathlib

/-
Verification of the "Slash" chat client (React/JS) against its design spec.

The repository holds four snapshots of the same single-file client:
  * src/src/App.jsx            -- `SrcVariant` below (apiFetch wrapper, auto-send voice)
  * src/unnamed/part_001       -- behaviourally matches `SrcVariant` for the claims here
  * src/frontend/src/App.jsx   -- `Frontend` below (raw fetch, staging voice recorder)
  * src/unnamed/part_000       -- `Part000` below (Frontend plus block relation)

The embedding is a shallow one: each React event handler (`send`, `search`,
`startRecording`, `stopRecording`, `submit`) becomes a pure Lean function on an
explicit state record.  An async handler is split at its `await fetch` point:
the HTTP response it would receive is passed in as an argument, and the list of
network requests the handler issues is returned alongside the new state, so
"issues no network call" is exactly "the returned request list is empty".
-/

namespace Slash

/-- Message kinds: the four values of the `type` select in the composer. -/
inductive Kind
  | text
  | image
  | video
  | audio
deriving DecidableEq, Repr

/-- A user identity as returned by the API (`/login`, `/register`, `/users/search`). -/
structure User where
  id : Nat
  name : String
  username : String
  avatar_url : Option String
deriving DecidableEq, Repr

/-- An uploaded or recorded file (only the identity matters to the client logic). -/
structure File where
  name : String
  mime : String
deriving DecidableEq, Repr

/-- A message as returned by the API and held in the `messages` state. -/
structure Msg where
  id : Nat
  sender : String
  receiver : String
  type : Kind
  text : Option String
  media_url : Option String
  created_at : Nat
deriving DecidableEq, Repr

/-- One microphone audio track of a captured stream; `stopped` records whether
`track.stop()` has been called on it. -/
structure Track where
  stopped : Bool
deriving DecidableEq, Repr

/-- A media stream acquired from `getUserMedia({ audio: true })`. -/
structure Stream where
  tracks : List Track
deriving DecidableEq, Repr

/-- `stream.getTracks().forEach(t => t.stop())`. -/
def Stream.stopAll (s : Stream) : Stream :=
  ⟨s.tracks.map fun t => { t with stopped := true }⟩

/-- `MediaRecorder.state` values used by the code. -/
inductive MRState
  | inactive
  | recording
  | paused
deriving DecidableEq, Repr

/-- The `MediaRecorder` object: its state and the stream it captures. -/
structure MediaRecorder where
  state : MRState
  stream : Stream
deriving DecidableEq, Repr

/-- Outcome of `navigator.mediaDevices.getUserMedia({ audio: true })`. -/
inductive Permission
  | granted (stream : Stream)
  | denied
deriving DecidableEq, Repr

/-- The multipart body built for `POST /messages/send`: the code appends
`sender`, `receiver`, `type`, and conditionally `text` and `file`. -/
structure FormDataMsg where
  sender : String
  receiver : String
  type : Kind
  text : Option String
  file : Option File
deriving DecidableEq, Repr

/-- A network request the client issues (path plus the data that varies). -/
inductive Request
  | sendMsg (fd : FormDataMsg)
  | searchUsers (q : String)
  | history (user1 user2 : String) (limit : Nat)
  | conversations (user : String) (limit : Nat)
deriving DecidableEq, Repr

/-- Outcome of an awaited `fetch` of `POST /messages/send`, as seen by the
handler after the `await`: an ok response carrying the created message, an
HTTP error response carrying an optional `detail` field, or a transport-level
failure (the promise rejected). -/
inductive SendOutcome
  | ok (data : Msg)
  | httpError (detail : Option String)
  | netError (msg : String)
deriving DecidableEq, Repr

/-- Outcome of an awaited `fetch` of `GET /users/search`. -/
inductive SearchOutcome
  | ok (results : List User)
  | httpError
  | netError (msg : String)
deriving DecidableEq, Repr

/-- JavaScript `s.trim()`: the string with leading and trailing whitespace
removed (defined over the character list so that it evaluates by reduction). -/
def jsTrim (s : String) : String :=
  ⟨((s.data.dropWhile Char.isWhitespace).reverse.dropWhile Char.isWhitespace).reverse⟩

/-- JavaScript `a || b` for an optional string field: both a missing field and
an empty string are falsy and select the fallback. -/
def jsOr (s : Option String) (d : String) : String :=
  match s with
  | some v => if v = "" then d else v
  | none => d

/-- The fresh `File` built from the recorded chunks:
`new File([blob], "voice-....webm", { type: "audio/webm" })`. -/
def voiceFile : File :=
  { name := "voice.webm", mime := "audio/webm" }

end Slash

namespace Slash.SrcVariant

/-
src/src/App.jsx (the same logic appears in src/unnamed/part_001).
-/

/-- Result of the raw `fetch` promise inside `apiFetch`: either a response
object or a transport-level rejection carrying the raw error message. -/
inductive FetchResult (α : Type)
  | success (res : α)
  | transportError (raw : String)
deriving DecidableEq, Repr

/-- The error value `apiFetch` throws on a transport failure: a fresh message
with the original error kept as `cause`. -/
structure ApiErr where
  message : String
  cause : Option String
deriving DecidableEq, Repr

/-- `apiFetch(url, options)` from src/src/App.jsx lines 17-28: a successful
fetch is returned as is; a rejected fetch is re-thrown as a new error whose
message is `"Network error. "` followed by a hint naming `API_BASE`, with the
raw error attached as `cause`. `API_BASE` is environment-derived, so it is a
parameter here. -/
def apiFetch {α : Type} (apiBase : String) (r : FetchResult α) : Except ApiErr α :=
  match r with
  | FetchResult.success res => Except.ok res
  | FetchResult.transportError raw =>
      Except.error
        { message := "Network error. " ++ "Cannot reach backend at " ++ apiBase ++
            ". Set VITE_BACKEND_URL in the frontend or ensure backend is running.",
          cause := some raw }

/-- The `Chat` component state of src/src/App.jsx restricted to the fields the
handlers below read or write (the conversations side panel keeps no state the
claims touch; the request `loadConvos` issues is still recorded). -/
structure ChatState where
  query : String
  results : List User
  peer : Option User
  messages : List Msg
  text : String
  type : Kind
  file : Option File
  error : String
  recording : Bool
  paused : Bool
  sendingVoice : Bool
  mediaRecorder : Option MediaRecorder
deriving DecidableEq, Repr

/-- `search(q)` from src/src/App.jsx lines 194-206: stores the query; a falsy
(empty) query clears the results without fetching; otherwise fetches
`/users/search` and, on an ok response, stores the results with the requesting
user filtered out; an HTTP error leaves the results alone; a transport error is
caught and its message displayed. -/
def search (me : User) (st : ChatState) (q : String) (resp : SearchOutcome) :
    ChatState × List Request :=
  let st0 := { st with query := q }
  if q = "" then
    ({ st0 with results := [] }, [])
  else
    match resp with
    | SearchOutcome.ok users =>
        ({ st0 with results := users.filter fun u => u.username ≠ me.username },
         [Request.searchUsers q])
    | SearchOutcome.httpError => (st0, [Request.searchUsers q])
    | SearchOutcome.netError msg => ({ st0 with error := msg }, [Request.searchUsers q])

/-- `send()` from src/src/App.jsx lines 208-229: clears the error banner,
returns if no peer is selected, then builds the form (note: no emptiness check
on `text`) and posts it; on ok it clears the composer, appends the returned
message and refreshes the conversations panel; on an HTTP error it shows the
server `detail`; a transport error message is shown as is. -/
def send (me : User) (st : ChatState) (resp : SendOutcome) :
    ChatState × List Request :=
  let st0 := { st with error := "" }
  match st0.peer with
  | none => (st0, [])
  | some peer =>
      let fd : FormDataMsg :=
        { sender := me.username, receiver := peer.username, type := st0.type,
          text := if st0.type = Kind.text then some st0.text else none,
          file := st0.file }
      match resp with
      | SendOutcome.ok data =>
          ({ st0 with text := "", file := none, messages := st0.messages ++ [data] },
           [Request.sendMsg fd, Request.conversations me.username 50])
      | SendOutcome.httpError detail =>
          ({ st0 with error := jsOr detail "Failed to send" }, [Request.sendMsg fd])
      | SendOutcome.netError msg =>
          ({ st0 with error := msg }, [Request.sendMsg fd])

/-- `sendVoiceBlob(blob)` from src/src/App.jsx lines 231-252: posts the
recorded clip as an audio message; appends the returned message on ok, shows
the error detail otherwise. -/
def sendVoiceBlob (me : User) (st : ChatState) (resp : SendOutcome) :
    ChatState × List Request :=
  match st.peer with
  | none => (st, [])
  | some peer =>
      let fd : FormDataMsg :=
        { sender := me.username, receiver := peer.username, type := Kind.audio,
          text := none, file := some voiceFile }
      match resp with
      | SendOutcome.ok data =>
          ({ st with messages := st.messages ++ [data], sendingVoice := false },
           [Request.sendMsg fd, Request.conversations me.username 50])
      | SendOutcome.httpError detail =>
          ({ st with error := jsOr detail "Failed to send voice note", sendingVoice := false },
           [Request.sendMsg fd])
      | SendOutcome.netError msg =>
          ({ st with error := msg, sendingVoice := false }, [Request.sendMsg fd])

/-- `startRecording()` from src/src/App.jsx lines 254-276: on a granted
microphone a fresh recorder over the stream starts recording; on denial the
catch block shows "Microphone permission denied" and forces the recording
flags off. -/
def startRecording (st : ChatState) (perm : Permission) : ChatState :=
  match perm with
  | Permission.granted stream =>
      { st with error := "",
                mediaRecorder := some { state := MRState.recording, stream := stream },
                recording := true, paused := false }
  | Permission.denied =>
      { st with error := "Microphone permission denied", recording := false, paused := false }

/-- `stopRecording()` from src/src/App.jsx lines 294-301 together with the
`mr.onstop` handler installed at lines 261-266: when the recorder is not
inactive, `mr.stop()` fires `onstop`, which stops every track of the captured
stream and auto-sends the recorded clip; the recording flags are cleared either
way. -/
def stopRecording (me : User) (st : ChatState) (vresp : SendOutcome) :
    ChatState × List Request :=
  match st.mediaRecorder with
  | some mr =>
      if mr.state ≠ MRState.inactive then
        let st1 :=
          { st with mediaRecorder :=
                      some { state := MRState.inactive, stream := mr.stream.stopAll },
                    recording := false, paused := false }
        sendVoiceBlob me st1 vresp
      else
        ({ st with recording := false, paused := false }, [])
  | none => ({ st with recording := false, paused := false }, [])

/-- The `Auth` component state of src/src/App.jsx (lines 54-96). -/
structure AuthForm where
  name : String
  username : String
  email : String
  password : String
  identifier : String
deriving DecidableEq, Repr

/-- Visible `Auth` state: which form is shown and the inline error. -/
structure AuthState where
  mode : String
  form : AuthForm
  loading : Bool
  error : String
deriving DecidableEq, Repr

/-- Outcome of the awaited `/login` or `/register` call. -/
inductive AuthOutcome
  | ok (user : User)
  | httpError (detail : Option String)
  | netError (msg : String)
deriving DecidableEq, Repr

/-- `submit(e)` from src/src/App.jsx lines 65-96: on an ok response the
identity is written to local storage under `slash_user` and handed to the
parent (modelled by the second component, the session persisted — `none` means
`localStorage.setItem` was never executed); on an HTTP error the thrown
`detail` (or a mode-specific fallback) is displayed; a transport error message
is displayed as is. -/
def submit (st : AuthState) (resp : AuthOutcome) : AuthState × Option User :=
  let fallback := if st.mode = "register" then "Failed to register" else "Failed to login"
  match resp with
  | AuthOutcome.ok user => ({ st with loading := false, error := "" }, some user)
  | AuthOutcome.httpError detail =>
      ({ st with loading := false, error := jsOr detail fallback }, none)
  | AuthOutcome.netError msg => ({ st with loading := false, error := msg }, none)

end Slash.SrcVariant

namespace Slash.Frontend

/-
src/frontend/src/App.jsx.  This variant uses raw `fetch` (no apiFetch
wrapper): an HTTP error response is simply ignored by `send` and `search`,
and a transport rejection escapes the handler unhandled, changing no state.
-/

/-- The `Chat` component state of src/frontend/src/App.jsx restricted to the
fields the handlers below read or write. -/
structure ChatState where
  query : String
  results : List User
  peer : Option User
  messages : List Msg
  text : String
  file : Option File
  type : Kind
  recording : Bool
  permissionError : String
  elapsed : Nat
  mediaRecorderRef : Option MediaRecorder
  streamRef : Option Stream
  timerRef : Option Nat
  previewUrl : Option String
deriving DecidableEq, Repr

/-- `search()` from src/frontend/src/App.jsx lines 108-112: returns without
fetching when the trimmed query is empty; otherwise fetches `/users/search`
and, on an ok response, stores the results exactly as returned (no filtering
of the requesting user); an HTTP error changes nothing; a transport rejection
is unhandled and changes nothing. -/
def search (st : ChatState) (resp : SearchOutcome) : ChatState × List Request :=
  if jsTrim st.query = "" then (st, [])
  else
    match resp with
    | SearchOutcome.ok users => ({ st with results := users }, [Request.searchUsers st.query])
    | SearchOutcome.httpError => (st, [Request.searchUsers st.query])
    | SearchOutcome.netError _ => (st, [Request.searchUsers st.query])

/-- The form built by `send()` when its local guards pass: `none` when the
handler returns before fetching (no peer is handled separately; a text draft
with blank trimmed body, or a media draft with no file, is rejected here). -/
def sendForm (me peer : User) (st : ChatState) : Option FormDataMsg :=
  if st.type = Kind.text then
    if jsTrim st.text = "" then none
    else some { sender := me.username, receiver := peer.username, type := st.type,
                text := some st.text, file := none }
  else
    match st.file with
    | some f =>
        some { sender := me.username, receiver := peer.username, type := st.type,
               text := none, file := some f }
    | none => none

/-- `send()` from src/frontend/src/App.jsx lines 168-192: returns if no peer
is selected; rejects locally a text draft with blank trimmed body and a media
draft with no file; otherwise posts the form and, only on an ok response,
clears the composer (text, file, preview URL) and refreshes the thread by
re-fetching the history (`hresp` is that second response: `none` for a non-ok
history response, in which case the held list is kept). An HTTP error response
to the send itself changes nothing (the code has no else branch), and a
transport rejection is unhandled. -/
def send (me : User) (st : ChatState) (resp : SendOutcome) (hresp : Option (List Msg)) :
    ChatState × List Request :=
  match st.peer with
  | none => (st, [])
  | some peer =>
      match sendForm me peer st with
      | none => (st, [])
      | some fd =>
          match resp with
          | SendOutcome.ok _ =>
              ({ st with text := "", file := none, previewUrl := none,
                         messages := hresp.getD st.messages },
               [Request.sendMsg fd, Request.history me.username peer.username 100])
          | SendOutcome.httpError _ => (st, [Request.sendMsg fd])
          | SendOutcome.netError _ => (st, [Request.sendMsg fd])

/-- `startRecording()` from src/frontend/src/App.jsx lines 120-147: clears the
permission banner and asks for the microphone; on grant it keeps the stream,
starts a recorder over it and the one-second elapsed counter; on denial the
catch block sets the permission message and nothing else (the recording flag
and the staged file are untouched). -/
def startRecording (st : ChatState) (perm : Permission) : ChatState :=
  match perm with
  | Permission.granted stream =>
      { st with permissionError := "",
                streamRef := some stream,
                mediaRecorderRef := some { state := MRState.recording, stream := stream },
                recording := true, elapsed := 0, timerRef := some 1 }
  | Permission.denied =>
      { st with permissionError :=
          "Microphone permission denied. You can also upload an audio file instead." }

/-- `stopRecording()` from src/frontend/src/App.jsx lines 149-159 together
with the `mr.onstop` handler installed at lines 131-139: when a recorder
exists and the recording flag is set, `mr.stop()` fires `onstop`, which stages
the recorded clip as the draft file with a preview URL; the handler then stops
the elapsed counter and every track of the captured stream and drops the
stream reference.  The second component returns the captured stream as it is
left after the call (the same object `mediaRecorderRef` captures), so track
release can be stated about it. -/
def stopRecording (st : ChatState) : ChatState × Option Stream :=
  match st.mediaRecorderRef with
  | some mr =>
      if st.recording then
        let stopped := st.streamRef.map Stream.stopAll
        ({ st with
             mediaRecorderRef := some { mr with state := MRState.inactive,
                                                stream := mr.stream.stopAll },
             file := some voiceFile, previewUrl := some "blob:voice",
             recording := false, timerRef := none, streamRef := none },
         stopped)
      else (st, none)
  | none => (st, none)

/-- `clearVoice()` from src/frontend/src/App.jsx lines 161-166. -/
def clearVoice (st : ChatState) : ChatState :=
  { st with file := none, previewUrl := none, elapsed := 0, recording := false }

end Slash.Frontend

namespace Slash.Part000

/-
src/unnamed/part_000: the Frontend variant extended with the block relation
(`blocked`, `blockedBy`, `statusMsg`) and a `detail`-surfacing else branch in
`send`.
-/

/-- The `Chat` component state of src/unnamed/part_000 restricted to the
fields the handlers below read or write. -/
structure ChatState where
  query : String
  results : List User
  peer : Option User
  messages : List Msg
  text : String
  file : Option File
  type : Kind
  blocked : Bool
  blockedBy : Option String
  statusMsg : String
  recording : Bool
  permissionError : String
  elapsed : Nat
  mediaRecorderRef : Option MediaRecorder
  streamRef : Option Stream
  timerRef : Option Nat
  previewUrl : Option String
deriving DecidableEq, Repr

/-- Response of `GET /block/status`. -/
structure BlockStatus where
  blocked : Bool
  blocked_by : Option String
deriving DecidableEq, Repr

/-- `checkBlock()` from src/unnamed/part_000 lines 141-149: with a peer
selected, queries the block status and stores it; `resp = none` models a
non-ok response, which changes nothing. -/
def checkBlock (st : ChatState) (resp : Option BlockStatus) : ChatState :=
  match st.peer with
  | none => st
  | some _ =>
      match resp with
      | some data => { st with blocked := data.blocked, blockedBy := data.blocked_by }
      | none => st

/-- The form built by `send()` when its local guards pass (same guards as the
Frontend variant, lines 199-206 of src/unnamed/part_000). -/
def sendForm (me peer : User) (st : ChatState) : Option FormDataMsg :=
  if st.type = Kind.text then
    if jsTrim st.text = "" then none
    else some { sender := me.username, receiver := peer.username, type := st.type,
                text := some st.text, file := none }
  else
    match st.file with
    | some f =>
        some { sender := me.username, receiver := peer.username, type := st.type,
               text := none, file := some f }
    | none => none

/-- `send()` from src/unnamed/part_000 lines 193-216: returns at once when no
peer is selected or the relation is blocked; rejects locally a blank text
draft and a media draft with no file; otherwise posts the form.  On ok it
clears the composer and re-fetches the history (`hresp`, `none` meaning a
non-ok history response).  On an HTTP error it surfaces the server `detail`
(falling back to "Send failed") in the status line and changes nothing else.
A transport rejection is unhandled. -/
def send (me : User) (st : ChatState) (resp : SendOutcome) (hresp : Option (List Msg)) :
    ChatState × List Request :=
  match st.peer with
  | none => (st, [])
  | some peer =>
      if st.blocked then (st, [])
      else
        match sendForm me peer st with
        | none => (st, [])
        | some fd =>
            match resp with
            | SendOutcome.ok _ =>
                ({ st with text := "", file := none, previewUrl := none,
                           messages := hresp.getD st.messages },
                 [Request.sendMsg fd, Request.history me.username peer.username 100])
            | SendOutcome.httpError detail =>
                ({ st with statusMsg := jsOr detail "Send failed" }, [Request.sendMsg fd])
            | SendOutcome.netError _ => (st, [Request.sendMsg fd])

/-- `startRecording()` from src/unnamed/part_000 lines 151-175: identical
logic to the Frontend variant. -/
def startRecording (st : ChatState) (perm : Permission) : ChatState :=
  match perm with
  | Permission.granted stream =>
      { st with permissionError := "",
                streamRef := some stream,
                mediaRecorderRef := some { state := MRState.recording, stream := stream },
                recording := true, elapsed := 0, timerRef := some 1 }
  | Permission.denied =>
      { st with permissionError :=
          "Microphone permission denied. You can also upload an audio file instead." }

/-- `stopRecording()` from src/unnamed/part_000 lines 177-184 with its
`mr.onstop` (lines 160-167): identical logic to the Frontend variant. -/
def stopRecording (st : ChatState) : ChatState × Option Stream :=
  match st.mediaRecorderRef with
  | some mr =>
      if st.recording then
        let stopped := st.streamRef.map Stream.stopAll
        ({ st with
             mediaRecorderRef := some { mr with state := MRState.inactive,
                                                stream := mr.stream.stopAll },
             file := some voiceFile, previewUrl := some "blob:voice",
             recording := false, timerRef := none, streamRef := none },
         stopped)
      else (st, none)
  | none => (st, none)

end Slash.Part000

namespace Slash

/-- Every track of a stream is stopped after `stream.getTracks().forEach(t => t.stop())`. -/
theorem Stream.stopAll_stopped (s : Stream) :
    ∀ t ∈ s.stopAll.tracks, t.stopped = true := by
  intro t ht
  simp only [Stream.stopAll, List.mem_map] at ht
  obtain ⟨a, _, rfl⟩ := ht
  rfl

/-- Test fixture: the requesting user. -/
def alice : User := { id := 1, name := "Alice", username := "alice", avatar_url := none }

/-- Test fixture: the selected peer. -/
def bob : User := { id := 2, name := "Bob", username := "bob", avatar_url := none }

/-- Test fixture: a text message as the server would return it. -/
def msgHi : Msg :=
  { id := 10, sender := "alice", receiver := "bob", type := Kind.text,
    text := some "hi", media_url := none, created_at := 0 }

/-- Test fixture: a src-variant chat state with a selected peer and an empty
text draft. -/
def srcState0 : SrcVariant.ChatState :=
  { query := "", results := [], peer := some bob, messages := [], text := "",
    type := Kind.text, file := none, error := "", recording := false, paused := false,
    sendingVoice := false, mediaRecorder := none }

/-- Test fixture: a frontend-variant chat state with a selected peer and a
whitespace-only text draft. -/
def feStateBlank : Frontend.ChatState :=
  { query := "", results := [], peer := some bob, messages := [msgHi], text := "   ",
    file := none, type := Kind.text, recording := false, permissionError := "",
    elapsed := 0, mediaRecorderRef := none, streamRef := none, timerRef := none,
    previewUrl := none }

/-- Test fixture: a part_000 chat state with a selected peer and a
whitespace-only text draft, relation not blocked. -/
def p0StateBlank : Part000.ChatState :=
  { query := "", results := [], peer := some bob, messages := [msgHi], text := "   ",
    file := none, type := Kind.text, blocked := false, blockedBy := none, statusMsg := "",
    recording := false, permissionError := "", elapsed := 0, mediaRecorderRef := none,
    streamRef := none, timerRef := none, previewUrl := none }

end Slash

namespace Slash

/-- Claim C1 (counterexample). In src/src/App.jsx, `send` performs no
emptiness check on the text body: with a peer selected and an empty text
draft, invoking `send` does issue a network call (and, the response being ok,
the message list changes as well), so the claim as stated is false on this
variant. -/
theorem C1_counterexample :
    ¬ ((SrcVariant.send alice srcState0 (SendOutcome.ok msgHi)).2 = [] ∧
       (SrcVariant.send alice srcState0 (SendOutcome.ok msgHi)).1.messages
          = srcState0.messages) := by
  decide

/-- Claim C1 (amended): in the variants with local validation
(src/frontend/src/App.jsx and src/unnamed/part_000), invoking `send` on a text
draft whose body trims to the empty string issues no network call and leaves
the whole state — the held message list included — unchanged. -/
theorem C1_text_blank_send_rejected_locally
    (me : User) (stF : Frontend.ChatState) (stP : Part000.ChatState)
    (respF respP : SendOutcome) (hrespF hrespP : Option (List Msg))
    (hF1 : stF.type = Kind.text) (hF2 : jsTrim stF.text = "")
    (hP1 : stP.type = Kind.text) (hP2 : jsTrim stP.text = "") :
    Frontend.send me stF respF hrespF = (stF, []) ∧
    Part000.send me stP respP hrespP = (stP, []) := by
  constructor
  · unfold Frontend.send Frontend.sendForm
    cases hpeer : stF.peer with
    | none => rfl
    | some peer => simp [hF1, hF2]
  · unfold Part000.send Part000.sendForm
    cases hpeer : stP.peer with
    | none => rfl
    | some peer =>
      by_cases hb : stP.blocked <;> simp [hP1, hP2, hb]

/-- Concrete instance of the amended claim C1 at a whitespace-only draft. -/
theorem C1_witness :
    Frontend.send alice feStateBlank (SendOutcome.httpError none) none
        = (feStateBlank, []) ∧
    Part000.send alice p0StateBlank (SendOutcome.httpError none) none
        = (p0StateBlank, []) :=
  C1_text_blank_send_rejected_locally alice feStateBlank p0StateBlank
    (SendOutcome.httpError none) (SendOutcome.httpError none) none none
    rfl (by decide) rfl (by decide)

end Slash

namespace Slash

/-- Test fixture: a frontend-variant chat state whose search box holds a
non-empty query. -/
def feStateQuery : Frontend.ChatState :=
  { query := "al", results := [], peer := none, messages := [], text := "",
    file := none, type := Kind.text, recording := false, permissionError := "",
    elapsed := 0, mediaRecorderRef := none, streamRef := none, timerRef := none,
    previewUrl := none }

/-- Claim C2 (counterexample). In src/frontend/src/App.jsx, `search` stores
the server's results without filtering: when the response to the non-empty
query "al" includes the requesting user (alice), the held result list contains
a user whose handle equals the requester's own handle. -/
theorem C2_counterexample :
    alice ∈ (Frontend.search feStateQuery (SearchOutcome.ok [alice, bob])).1.results ∧
    alice.username = alice.username := by
  decide

/-- Claim C2 (amended): in src/src/App.jsx (and src/unnamed/part_001),
`search` filters the requesting user out of the stored results, so if the
held result list contains no user with the requester's handle before a search,
it still contains none afterwards; src/frontend/src/App.jsx and
src/unnamed/part_000 store the response unfiltered. -/
theorem C2_search_filters_self
    (me : User) (st : SrcVariant.ChatState) (q : String) (resp : SearchOutcome)
    (h : ∀ u ∈ st.results, u.username ≠ me.username) :
    ∀ u ∈ (SrcVariant.search me st q resp).1.results, u.username ≠ me.username := by
  unfold SrcVariant.search
  by_cases hq : q = ""
  · simp [hq]
  · cases resp with
    | ok users =>
        intro u hu
        simp only [if_neg hq, List.mem_filter] at hu
        have := hu.2
        simpa using this
    | httpError =>
        simpa [hq] using h
    | netError msg =>
        simpa [hq] using h

/-- Concrete instance of the amended claim C2: a search by alice whose server
response contains alice herself yields a result list free of her handle. -/
theorem C2_witness :
    ((SrcVariant.search alice srcState0 "bo" (SearchOutcome.ok [bob, alice])).1.results.all
        fun u => u.username != alice.username) = true := by
  rw [List.all_eq_true]
  intro u hu
  have h := C2_search_filters_self alice srcState0 "bo"
    (SearchOutcome.ok [bob, alice]) (by decide) u hu
  simpa [bne_iff_ne] using h

/-- Claim C3: in src/unnamed/part_000, `send` returns before building the form
or fetching whenever the block flag for the active peer relation is set, for a
draft of any kind: no network call is issued and the state is unchanged. -/
theorem C3_send_blocked_no_network
    (me : User) (st : Part000.ChatState) (resp : SendOutcome)
    (hresp : Option (List Msg)) (h : st.blocked = true) :
    Part000.send me st resp hresp = (st, []) := by
  unfold Part000.send
  cases hpeer : st.peer with
  | none => rfl
  | some peer => simp [h]

/-- Test fixture: a part_000 chat state with a blocked peer relation and a
non-blank media draft. -/
def p0StateBlocked : Part000.ChatState :=
  { query := "", results := [], peer := some bob, messages := [msgHi], text := "hello",
    file := some voiceFile, type := Kind.audio, blocked := true, blockedBy := some "bob",
    statusMsg := "", recording := false, permissionError := "", elapsed := 0,
    mediaRecorderRef := none, streamRef := none, timerRef := none, previewUrl := none }

/-- Concrete instance of claim C3 at a blocked relation with an audio draft. -/
theorem C3_witness :
    Part000.send alice p0StateBlocked (SendOutcome.ok msgHi) (some []) = (p0StateBlocked, []) :=
  C3_send_blocked_no_network alice p0StateBlocked (SendOutcome.ok msgHi) (some []) rfl

end Slash

namespace Slash

/-- Claim C4: stopping an active recording releases the microphone in both
variants.  Auto-send variant (src/src/App.jsx): with an active recorder,
`stopRecording` leaves every track of the recorder's captured stream stopped,
whatever the voice-send response.  Staging variant (src/frontend/src/App.jsx):
with the recording flag set and the captured stream held, `stopRecording`
leaves that stream with every track stopped. -/
theorem C4_stop_releases_microphone
    (me : User) (stS : SrcVariant.ChatState) (mrS : MediaRecorder) (vresp : SendOutcome)
    (stF : Frontend.ChatState) (sF : Stream)
    (hS1 : stS.mediaRecorder = some mrS) (hS2 : mrS.state ≠ MRState.inactive)
    (hF1 : stF.mediaRecorderRef.isSome = true) (hF2 : stF.recording = true)
    (hF3 : stF.streamRef = some sF) :
    (∀ mr ∈ ((SrcVariant.stopRecording me stS vresp).1).mediaRecorder,
        ∀ t ∈ mr.stream.tracks, t.stopped = true) ∧
    ((Frontend.stopRecording stF).2 = some sF.stopAll ∧
      ∀ t ∈ sF.stopAll.tracks, t.stopped = true) := by
  constructor
  · unfold SrcVariant.stopRecording SrcVariant.sendVoiceBlob
    rw [hS1]
    simp only [if_pos hS2, ne_eq]
    cases hpeer : stS.peer with
    | none =>
        simp only [hpeer, Option.mem_def, Option.some.injEq]
        rintro mr rfl
        exact Stream.stopAll_stopped mrS.stream
    | some peer =>
        cases vresp <;>
          · simp only [hpeer, Option.mem_def, Option.some.injEq]
            rintro mr rfl
            exact Stream.stopAll_stopped mrS.stream
  · unfold Frontend.stopRecording
    cases hmr : stF.mediaRecorderRef with
    | none => rw [hmr] at hF1; simp at hF1
    | some mr =>
        refine ⟨?_, Stream.stopAll_stopped sF⟩
        simp [hF2, hF3]

/-- Test fixture: a live two-track microphone stream. -/
def liveStream : Stream := ⟨[⟨false⟩, ⟨false⟩]⟩

/-- Test fixture: a src-variant chat state in the middle of a recording. -/
def srcStateRec : SrcVariant.ChatState :=
  { query := "", results := [], peer := some bob, messages := [], text := "",
    type := Kind.text, file := none, error := "", recording := true, paused := false,
    sendingVoice := false,
    mediaRecorder := some { state := MRState.recording, stream := liveStream } }

/-- Test fixture: a frontend-variant chat state in the middle of a recording. -/
def feStateRec : Frontend.ChatState :=
  { query := "", results := [], peer := some bob, messages := [], text := "",
    file := none, type := Kind.audio, recording := true, permissionError := "",
    elapsed := 3,
    mediaRecorderRef := some { state := MRState.recording, stream := liveStream },
    streamRef := some liveStream, timerRef := some 1, previewUrl := none }

/-- Concrete instance of claim C4 on a live two-track stream. -/
theorem C4_witness :
    ((SrcVariant.stopRecording alice srcStateRec (SendOutcome.ok msgHi)).1.mediaRecorder.elim
        true (fun mr => mr.stream.tracks.all fun t => t.stopped)) = true ∧
    (Frontend.stopRecording feStateRec).2 = some liveStream.stopAll ∧
    (liveStream.stopAll.tracks.all fun t => t.stopped) = true := by
  have h := C4_stop_releases_microphone alice srcStateRec
    { state := MRState.recording, stream := liveStream } (SendOutcome.ok msgHi)
    feStateRec liveStream rfl (by decide) rfl rfl rfl
  refine ⟨?_, h.2.1, ?_⟩
  · cases hmr : (SrcVariant.stopRecording alice srcStateRec (SendOutcome.ok msgHi)).1.mediaRecorder with
    | none => rfl
    | some mr =>
        have h1 := h.1 mr hmr
        simp only [Option.elim]
        rw [List.all_eq_true]
        intro t ht
        exact h1 t ht
  · rw [List.all_eq_true]
    intro t ht
    exact h.2.2 t ht

end Slash

namespace Slash

/-- Test fixture: a frontend-variant chat state with a selected peer and the
text draft "hi". -/
def feStateHi : Frontend.ChatState :=
  { query := "", results := [], peer := some bob, messages := [msgHi], text := "hi",
    file := none, type := Kind.text, recording := false, permissionError := "",
    elapsed := 0, mediaRecorderRef := none, streamRef := none, timerRef := none,
    previewUrl := none }

/-- Claim C5 (counterexample). In src/frontend/src/App.jsx a successful send
does not append the returned message: it re-fetches the history and replaces
the held list with whatever that returns.  With one held message, a successful
send answered by an empty history response leaves a list that is not the old
list with the returned message appended. -/
theorem C5_counterexample :
    ¬ (((Frontend.send alice feStateHi (SendOutcome.ok msgHi) (some [])).1.messages
          = feStateHi.messages ++ [msgHi]) ∧
       (Frontend.send alice feStateHi (SendOutcome.ok msgHi) (some [])).1.text = "") := by
  decide

/-- Claim C5 (amended): on a successful send, src/src/App.jsx (and
src/unnamed/part_001) append the message returned by the server exactly once
to the held list and clear the composer text; src/frontend/src/App.jsx (and
src/unnamed/part_000) clear the composer text but replace the held list with
the result of a fresh history fetch instead of appending. -/
theorem C5_send_success
    (me : User) (stS : SrcVariant.ChatState) (pS : User) (data : Msg)
    (stF : Frontend.ChatState) (pF : User) (dataF : Msg) (hist : List Msg)
    (hS : stS.peer = some pS)
    (hF1 : stF.peer = some pF) (hF2 : stF.type = Kind.text) (hF3 : jsTrim stF.text ≠ "") :
    ((SrcVariant.send me stS (SendOutcome.ok data)).1.messages
        = stS.messages ++ [data] ∧
     (SrcVariant.send me stS (SendOutcome.ok data)).1.text = "") ∧
    ((Frontend.send me stF (SendOutcome.ok dataF) (some hist)).1.text = "" ∧
     (Frontend.send me stF (SendOutcome.ok dataF) (some hist)).1.messages = hist) := by
  constructor
  · unfold SrcVariant.send
    simp [hS]
  · unfold Frontend.send Frontend.sendForm
    simp [hF1, hF2, hF3]

/-- Concrete instance of the amended claim C5. -/
theorem C5_witness :
    ((SrcVariant.send alice srcState0 (SendOutcome.ok msgHi)).1.messages
        = srcState0.messages ++ [msgHi] ∧
     (SrcVariant.send alice srcState0 (SendOutcome.ok msgHi)).1.text = "") ∧
    ((Frontend.send alice feStateHi (SendOutcome.ok msgHi) (some [msgHi, msgHi])).1.text = "" ∧
     (Frontend.send alice feStateHi (SendOutcome.ok msgHi) (some [msgHi, msgHi])).1.messages
        = [msgHi, msgHi]) :=
  C5_send_success alice srcState0 bob msgHi feStateHi bob msgHi [msgHi, msgHi]
    rfl rfl rfl (by decide)

/-- Claim C6: when microphone access is denied during `start`, the recorder
stays out of the recording state, the permission-denied message is shown, and
the draft file is untouched — in the staging variant
(src/frontend/src/App.jsx) and the auto-send variant (src/src/App.jsx). -/
theorem C6_permission_denied_stays_idle
    (stF : Frontend.ChatState) (stS : SrcVariant.ChatState)
    (hF : stF.recording = false) :
    ((Frontend.startRecording stF Permission.denied).recording = false ∧
     (Frontend.startRecording stF Permission.denied).permissionError =
        "Microphone permission denied. You can also upload an audio file instead." ∧
     (Frontend.startRecording stF Permission.denied).file = stF.file) ∧
    ((SrcVariant.startRecording stS Permission.denied).recording = false ∧
     (SrcVariant.startRecording stS Permission.denied).error =
        "Microphone permission denied" ∧
     (SrcVariant.startRecording stS Permission.denied).file = stS.file) := by
  unfold Frontend.startRecording SrcVariant.startRecording
  exact ⟨⟨hF, rfl, rfl⟩, rfl, rfl, rfl⟩

/-- Concrete instance of claim C6 at idle states. -/
theorem C6_witness :
    ((Frontend.startRecording feStateHi Permission.denied).recording = false ∧
     (Frontend.startRecording feStateHi Permission.denied).permissionError =
        "Microphone permission denied. You can also upload an audio file instead." ∧
     (Frontend.startRecording feStateHi Permission.denied).file = feStateHi.file) ∧
    ((SrcVariant.startRecording srcState0 Permission.denied).recording = false ∧
     (SrcVariant.startRecording srcState0 Permission.denied).error =
        "Microphone permission denied" ∧
     (SrcVariant.startRecording srcState0 Permission.denied).file = srcState0.file) :=
  C6_permission_denied_stays_idle feStateHi srcState0 rfl

/-- Claim C7: in src/src/App.jsx (and src/unnamed/part_001) every call goes
through `apiFetch`, and a transport-level fetch failure is raised as a fresh
error whose message carries a human-readable hint naming the configured
backend base, with the raw transport error attached only as its `cause`. -/
theorem C7_transport_error_wrapped (apiBase raw : String) :
    ∃ e : SrcVariant.ApiErr,
      SrcVariant.apiFetch (α := Unit) apiBase (SrcVariant.FetchResult.transportError raw)
        = Except.error e ∧
      e.cause = some raw ∧
      ∃ pre suf, pre ≠ "" ∧ e.message = pre ++ (apiBase ++ suf) := by
  refine ⟨_, rfl, rfl,
    "Network error. " ++ "Cannot reach backend at ",
    ". Set VITE_BACKEND_URL in the frontend or ensure backend is running.",
    by decide, ?_⟩
  rfl

end Slash

namespace Slash

/-- Claim C8: in src/src/App.jsx, when the `/login` call answers with an HTTP
error whose body carries `detail = "invalid credentials"`, `submit` displays
exactly that detail and never executes the `localStorage.setItem` write (the
persisted-session component is `none`). -/
theorem C8_login_error_shows_detail_no_persist
    (st : SrcVariant.AuthState) (_hmode : st.mode = "login") :
    (SrcVariant.submit st
        (SrcVariant.AuthOutcome.httpError (some "invalid credentials"))).1.error
      = "invalid credentials" ∧
    (SrcVariant.submit st
        (SrcVariant.AuthOutcome.httpError (some "invalid credentials"))).2 = none := by
  unfold SrcVariant.submit
  constructor
  · simp [jsOr]
  · rfl

/-- Test fixture: the login form filled in with wrong credentials. -/
def authStateLogin : SrcVariant.AuthState :=
  { mode := "login",
    form := { name := "", username := "", email := "", password := "wrong",
              identifier := "alice" },
    loading := true, error := "" }

/-- Concrete instance of claim C8 on a filled-in login form. -/
theorem C8_witness :
    (SrcVariant.submit authStateLogin
        (SrcVariant.AuthOutcome.httpError (some "invalid credentials"))).1.error
      = "invalid credentials" ∧
    (SrcVariant.submit authStateLogin
        (SrcVariant.AuthOutcome.httpError (some "invalid credentials"))).2 = none :=
  C8_login_error_shows_detail_no_persist authStateLogin rfl

/-- Claim C9 (counterexample). In src/src/App.jsx, `search` only treats the
exactly-empty string as empty (`if (!q)`): the whitespace-only query " " is
truthy, so invoking search with it does issue a network call, contradicting
the claim for whitespace-only queries. -/
theorem C9_counterexample :
    ¬ ((SrcVariant.search alice srcState0 " " (SearchOutcome.ok [])).2 = [] ∧
       (SrcVariant.search alice srcState0 " " (SearchOutcome.ok [])).1.results = []) := by
  decide

/-- Claim C9 (amended): for the exactly-empty query, `search` in
src/src/App.jsx issues no network call and the held result list is empty
afterwards; in src/frontend/src/App.jsx (and src/unnamed/part_000) a query
that trims to the empty string issues no network call but leaves the whole
state — the previously held result list included — unchanged, and in
src/src/App.jsx a whitespace-only query is treated as non-empty and fetches. -/
theorem C9_empty_query
    (me : User) (stS : SrcVariant.ChatState) (respS : SearchOutcome)
    (stF : Frontend.ChatState) (respF : SearchOutcome)
    (hF : jsTrim stF.query = "") :
    SrcVariant.search me stS "" respS = ({ stS with query := "", results := [] }, []) ∧
    Frontend.search stF respF = (stF, []) := by
  constructor
  · unfold SrcVariant.search
    simp
  · unfold Frontend.search
    simp [hF]

/-- Concrete instance of the amended claim C9. -/
theorem C9_witness :
    SrcVariant.search alice srcStateRec "" (SearchOutcome.ok [bob])
        = ({ srcStateRec with query := "", results := [] }, []) ∧
    Frontend.search feStateBlank (SearchOutcome.ok [bob]) = (feStateBlank, []) :=
  C9_empty_query alice srcStateRec (SearchOutcome.ok [bob]) feStateBlank
    (SearchOutcome.ok [bob]) (by decide)

/-- Claim C10: a send that completes with an HTTP error response changes
nothing but the error display.  In src/src/App.jsx the new state is the old
one with only `error` replaced by the server detail (composer text, draft file
and message list untouched); in src/unnamed/part_000, when the local guards
passed (peer selected, not blocked, form built), the new state is the old one
with only `statusMsg` replaced. -/
theorem C10_send_failure_atomic
    (me : User) (stS : SrcVariant.ChatState) (pS : User) (dS : Option String)
    (stP : Part000.ChatState) (pP : User) (dP : Option String)
    (fd : FormDataMsg) (hresp : Option (List Msg))
    (hS : stS.peer = some pS)
    (hP1 : stP.peer = some pP) (hP2 : stP.blocked = false)
    (hP3 : Part000.sendForm me pP stP = some fd) :
    (SrcVariant.send me stS (SendOutcome.httpError dS)).1
        = { stS with error := jsOr dS "Failed to send" } ∧
    (Part000.send me stP (SendOutcome.httpError dP) hresp).1
        = { stP with statusMsg := jsOr dP "Send failed" } := by
  constructor
  · unfold SrcVariant.send
    simp [hS]
  · unfold Part000.send
    simp [hP1, hP2, hP3]

/-- Test fixture: a part_000 chat state with an unblocked peer and the text
draft "hello". -/
def p0StateHello : Part000.ChatState :=
  { query := "", results := [], peer := some bob, messages := [msgHi], text := "hello",
    file := none, type := Kind.text, blocked := false, blockedBy := none, statusMsg := "",
    recording := false, permissionError := "", elapsed := 0, mediaRecorderRef := none,
    streamRef := none, timerRef := none, previewUrl := none }

/-- Concrete instance of claim C10 at a server detail of "blocked by peer". -/
theorem C10_witness :
    (SrcVariant.send alice srcStateRec (SendOutcome.httpError (some "blocked by peer"))).1
        = { srcStateRec with error := jsOr (some "blocked by peer") "Failed to send" } ∧
    (Part000.send alice p0StateHello (SendOutcome.httpError (some "blocked by peer")) none).1
        = { p0StateHello with statusMsg := jsOr (some "blocked by peer") "Send failed" } :=
  C10_send_failure_atomic alice srcStateRec bob (some "blocked by peer")
    p0StateHello bob (some "blocked by peer")
    { sender := "alice", receiver := "bob", type := Kind.text,
      text := some "hello", file := none }
    none rfl rfl rfl (by decide)

end Slash
